import Mathlib

/-!
Shallow embedding of the aggregation core of `instagram_analyzer.py`
(class `InstagramAnalyzer`) from the instagram-ai-analytics repository,
together with theorems settling the frozen claims C1–C10 about it.

Conventions of the embedding:
* Python floats are modelled as exact rationals (`ℚ`).
* Python dicts with fixed keys become structures; the "either a data dict or
  an `{"error": ...}` dict" return shape becomes an inductive type.
* Python exceptions become `Except String`; a function that cannot raise is total.
* The model-inference collaborators (`extract_colors`, `analyze_image_clip`,
  `analyze_sentiment` from `clip_analysis.py` / `sentiment.py`) are opaque
  numeric oracles from the analyzer's point of view, so the analyzer is
  parametrised over them (`Extractor`).
* `datetime.now()` (`generated_at`) is wall-clock and is omitted from the
  report structure; no claim mentions it.
-/

/-- Python `round` to the nearest integer with ties to even (banker's rounding),
on exact rationals. -/
def pyRoundInt (q : ℚ) : ℤ :=
  let f : ℤ := ⌊q⌋
  let r : ℚ := q - (f : ℚ)
  if r < 1/2 then f
  else if r > 1/2 then f + 1
  else if f % 2 = 0 then f else f + 1

/-- Python `round(x, n)` for `n` decimal digits, on exact rationals. -/
def pyRound (q : ℚ) (n : ℕ) : ℚ :=
  (pyRoundInt (q * ((10 : ℚ) ^ n)) : ℚ) / ((10 : ℚ) ^ n)

/-- Python `statistics.mean` / `numpy.mean` on rationals.  All call sites in the
analyzer guard against the empty list, on which Python would raise. -/
def pyMean (l : List ℚ) : ℚ := l.sum / (l.length : ℚ)

/-- Fixed-point formatting with one digit after the point (the f-string `:.1f`),
on exact rationals with round-half-to-even. -/
def fmtOneDecimal (q : ℚ) : String :=
  let m := pyRoundInt (q * 10)
  let sign := if m < 0 then "-" else ""
  let a := m.natAbs
  sign ++ toString (a / 10) ++ "." ++ toString (a % 10)

/-- The f-string `:02d` formatting of an hour value (zero-padded to width 2). -/
def pad2 (n : ℕ) : String :=
  if n < 10 then "0" ++ toString n else toString n

/-- Keys of a Python dict in insertion order: each value listed at its first
occurrence in the input.  Models `dict` key order for `color_frequency` and
`collections.Counter` element order inside `statistics.mode`. -/
def firstKeys {α : Type} [DecidableEq α] : List α → List α
  | [] => []
  | a :: rest => a :: (firstKeys rest).filter (fun b => b ≠ a)

/-- Python `statistics.mode` (3.8+ semantics): the most common value of the
list, ties resolved in favour of the value encountered first in the data.
Junk value `0` on the empty list (Python would raise; the analyzer guards). -/
def pyMode (l : List ℕ) : ℕ :=
  match firstKeys l with
  | [] => 0
  | k :: ks => ks.foldl (fun best c => if l.count c > l.count best then c else best) k

/-- Python truthiness of an optional string field (`if post.get(k):`):
present and non-empty. -/
def truthyStr : Option String → Bool
  | some s => s ≠ ""
  | none => false

/-- A post dict as consumed by the analyzer; absent keys are `none`
(`post.get(...)` supplies the defaults). -/
structure Post where
  image_url : Option String := none
  caption : Option String := none
  likes : Option ℤ := none
  comments : Option ℤ := none
  timestamp : Option String := none
deriving Repr, DecidableEq

/-- The profile dict passed to `analyze_profile`. -/
structure Profile where
  username : Option String := none
  followers : Option ℤ := none
  following : Option ℤ := none
  posts : List Post := []
deriving Repr, DecidableEq

/-- The collaborator functions from `clip_analysis.py` and `sentiment.py`,
treated as numeric oracles (their internals are model inference and I/O). -/
structure Extractor where
  extract_colors : String → List String
  analyze_image_clip : String → String → ℚ
  analyze_sentiment : String → ℚ

/-! ## Brand consistency aggregator (`_analyze_brand_consistency`) -/

/-- Image URLs of the posts with a truthy `image_url`, in post order. -/
def imageUrls (posts : List Post) : List String :=
  posts.filterMap (fun p => if truthyStr p.image_url then p.image_url else none)

/-- The `all_colors` accumulator: every palette color of every post with an
image, concatenated in post order. -/
def allColors (E : Extractor) (posts : List Post) : List String :=
  ((imageUrls posts).map E.extract_colors).flatten

/-- The `aesthetic_scores` accumulator: one CLIP alignment score per post with
an image, against the fixed prompt. -/
def aestheticScores (E : Extractor) (posts : List Post) : List ℚ :=
  (imageUrls posts).map
    (fun u => E.analyze_image_clip u "brand consistent aesthetic professional")

/-- `sorted(color_frequency.keys(), key=lambda x: color_frequency[x], reverse=True)`:
dict keys are in first-occurrence order and Python's sort is stable, so this is
the unique stable descending-count ordering of the first-occurrence key list.
Stable sorts with the same total preorder agree on output, so Mathlib's stable
insertion sort models `sorted` exactly. -/
def sortedByCountDesc (cs : List String) : List String :=
  List.insertionSort (fun a b => cs.count b ≤ cs.count a) (firstKeys cs)

/-- `dominant_colors`: the top (at most) 5 colors by descending count,
ties by first-seen order. -/
def dominantColors (cs : List String) : List String :=
  (sortedByCountDesc cs).take 5

/-- The local variable `consistency_score` before rounding:
`np.mean(aesthetic_scores) * 100 if aesthetic_scores else 0`. -/
def rawConsistencyScore (E : Extractor) (posts : List Post) : ℚ :=
  if aestheticScores E posts ≠ [] then pyMean (aestheticScores E posts) * 100 else 0

/-- The dict returned by `_analyze_brand_consistency`. -/
structure BrandResult where
  consistency_score : ℚ
  dominant_colors : List String
  color_variance : String
  brand_alignment : String
deriving Repr, DecidableEq

/-- `InstagramAnalyzer._analyze_brand_consistency`.  Note that the categorical
labels are computed from the unrounded score; only the reported
`consistency_score` field is rounded to one decimal. -/
def analyze_brand_consistency (E : Extractor) (posts : List Post) : BrandResult :=
  let consistency_score := rawConsistencyScore E posts
  { consistency_score := pyRound consistency_score 1
    dominant_colors := dominantColors (allColors E posts)
    color_variance :=
      if consistency_score > 80 then "Low"
      else if consistency_score > 60 then "Moderate" else "High"
    brand_alignment :=
      if consistency_score > 75 then "Strong"
      else if consistency_score > 50 then "Moderate" else "Weak" }

/-! ## Engagement aggregator (`_analyze_engagement`) -/

/-- The dict returned by `_analyze_engagement`: either the error dict for an
empty post list, or the four metric fields. -/
inductive EngagementResult where
  | error (msg : String)
  | ok (avg_likes : ℤ) (avg_comments : ℤ) (engagement_rate : ℚ) (trend : String)
deriving Repr, DecidableEq

/-- `engagement_analysis.get('engagement_rate', 0)` as used by
`_generate_insights`: the field if present, else `0`. -/
def EngagementResult.rateGet : EngagementResult → ℚ
  | .error _ => 0
  | .ok _ _ engagement_rate _ => engagement_rate

/-- Trend field accessor (sentinel string on the error dict, where the code
would find no `trend` key). -/
def EngagementResult.trendGet : EngagementResult → String
  | .error _ => ""
  | .ok _ _ _ trend => trend

/-- `InstagramAnalyzer._analyze_engagement`. -/
def analyze_engagement (posts : List Post) (followers : ℤ) : EngagementResult :=
  if posts = [] then .error "No posts to analyze"
  else
    let likes : List ℤ := posts.map (fun p => p.likes.getD 0)
    let comments : List ℤ := posts.map (fun p => p.comments.getD 0)
    let avg_likes : ℚ := if likes ≠ [] then pyMean (likes.map (fun x => (x : ℚ))) else 0
    let avg_comments : ℚ := if comments ≠ [] then pyMean (comments.map (fun x => (x : ℚ))) else 0
    let engagement_rate : ℚ :=
      if followers > 0 then ((avg_likes + avg_comments) / (followers : ℚ)) * 100 else 0
    let n := posts.length
    let recent_engagement : ℚ :=
      pyMean ((List.range (min 3 n)).map (fun i => ((likes.getD i 0 + comments.getD i 0 : ℤ) : ℚ)))
    let older_engagement : ℚ :=
      pyMean ((List.range' (n - 3) (n - (n - 3))).map
        (fun i => ((likes.getD i 0 + comments.getD i 0 : ℤ) : ℚ)))
    let trend :=
      if recent_engagement > older_engagement then "Increasing"
      else if recent_engagement < older_engagement then "Decreasing" else "Stable"
    .ok (pyRoundInt avg_likes) (pyRoundInt avg_comments) (pyRound engagement_rate 2) trend

/-! ## Sentiment aggregator (`_analyze_sentiment`) -/

/-- Captions of the posts with a truthy `caption`, in post order. -/
def captionsOf (posts : List Post) : List String :=
  posts.filterMap (fun p => if truthyStr p.caption then p.caption else none)

/-- The dict returned by `_analyze_sentiment`: either the error dict when no
captions are present, or the three sentiment fields. -/
inductive SentimentResult where
  | error (msg : String)
  | ok (overall : ℚ) (trend : String) (emotional_tone : String)
deriving Repr, DecidableEq

/-- `sentiment_analysis.get('overall', 0)` as used by the generators. -/
def SentimentResult.overallGet : SentimentResult → ℚ
  | .error _ => 0
  | .ok overall _ _ => overall

/-- Emotional-tone field accessor (sentinel string on the error dict). -/
def SentimentResult.toneGet : SentimentResult → String
  | .error _ => ""
  | .ok _ _ emotional_tone => emotional_tone

/-- Trend field accessor (sentinel string on the error dict). -/
def SentimentResult.trendGet : SentimentResult → String
  | .error _ => ""
  | .ok _ trend _ => trend

/-- `InstagramAnalyzer._analyze_sentiment`.  The tone and trend are computed
from the unrounded mean; the reported `overall` is rounded to two decimals. -/
def analyze_sentiment_posts (E : Extractor) (posts : List Post) : SentimentResult :=
  let sentiments := (captionsOf posts).map E.analyze_sentiment
  if sentiments = [] then .error "No captions to analyze"
  else
    let avg_sentiment := pyMean sentiments
    let emotional_tone :=
      if avg_sentiment > 3/10 then "Very Positive"
      else if avg_sentiment > 0 then "Positive"
      else if avg_sentiment > -(3/10) then "Neutral"
      else "Negative"
    .ok (pyRound avg_sentiment 2)
      (if avg_sentiment > 0 then "Positive" else "Negative")
      emotional_tone

/-! ## Datetime model (Python standard library, external to the repository)

The cadence aggregator relies on `datetime.fromisoformat`, datetime
comparison/subtraction, `.hour`, and `timedelta.days`.  These live in the
Python standard library, not in the repository, so they are modelled here from
their documented behaviour. -/

/-- Python `str.replace` with a single-character pattern, as in the analyzer's
`.replace('Z', '+00:00')`: every occurrence of the character is replaced. -/
def replaceChar (c : Char) (rep : List Char) : List Char → List Char
  | [] => []
  | d :: ds => if d = c then rep ++ replaceChar c rep ds else d :: replaceChar c rep ds

/-- The analyzer's `timestamp.replace('Z', '+00:00')`. -/
def replaceZ (s : String) : String :=
  ⟨replaceChar 'Z' ('+' :: ('0' :: '0' :: ':' :: '0' :: '0' :: [])) s.data⟩

/-- A parsed `datetime.datetime`: calendar fields plus an optional UTC offset in
minutes (`none` = naive datetime, `some` = aware datetime). -/
structure PyDateTime where
  year : ℕ
  month : ℕ
  day : ℕ
  hour : ℕ
  minute : ℕ
  second : ℕ
  tzOffsetMinutes : Option ℤ
deriving Repr, DecidableEq

/-- Read exactly `k` decimal digits from the front of the character list,
accumulating into `acc`. -/
def readFixedNat : ℕ → ℕ → List Char → Option (ℕ × List Char)
  | 0, acc, cs => some (acc, cs)
  | k + 1, acc, c :: cs =>
      if c.isDigit then readFixedNat k (10 * acc + (c.toNat - 48)) cs else none
  | _ + 1, _, [] => none

/-- Consume one expected character. -/
def expectChar (c : Char) : List Char → Option (List Char)
  | d :: cs => if d = c then some cs else none
  | [] => none

/-- Split the time portion at the first `+` or `-` (the UTC-offset sign), the
way `_parse_isoformat_time` locates the timezone part.  Returns the characters
before the sign and, if a sign was found, its polarity and the rest. -/
def findSign : List Char → List Char × Option (Bool × List Char)
  | [] => ([], none)
  | c :: cs =>
      if c = '+' then ([], some (false, cs))
      else if c = '-' then ([], some (true, cs))
      else
        let r := findSign cs
        (c :: r.1, r.2)

/-- Parse `HH`, `HH:MM` or `HH:MM:SS` (the whole list must be consumed). -/
def parseHMS (cs : List Char) : Option (ℕ × ℕ × ℕ) := do
  let (h, r1) ← readFixedNat 2 0 cs
  match r1 with
  | [] => some (h, 0, 0)
  | ':' :: r2 => do
    let (mi, r3) ← readFixedNat 2 0 r2
    match r3 with
    | [] => some (h, mi, 0)
    | ':' :: r4 =>
      match readFixedNat 2 0 r4 with
      | some (s, []) => some (h, mi, s)
      | _ => none
    | _ => none
  | _ => none

/-- Parse a `HH:MM` UTC offset (the whole list must be consumed). -/
def parseOffsetHM (cs : List Char) : Option (ℕ × ℕ) := do
  let (oh, r1) ← readFixedNat 2 0 cs
  let r2 ← expectChar ':' r1
  match readFixedNat 2 0 r2 with
  | some (om, []) => some (oh, om)
  | _ => none

/-- Leap-year rule of the proleptic Gregorian calendar. -/
def isLeapYear (y : ℕ) : Bool :=
  (y % 4 = 0 && y % 100 ≠ 0) || y % 400 = 0

/-- Days in a month of the proleptic Gregorian calendar. -/
def daysInMonth (y m : ℕ) : ℕ :=
  if m = 2 then (if isLeapYear y then 29 else 28)
  else if m = 4 ∨ m = 6 ∨ m = 9 ∨ m = 11 then 30
  else 31

/-- Range validation performed by the `datetime` constructor. -/
def validDateTime (y mo d h mi s : ℕ) : Bool :=
  1 ≤ y && y ≤ 9999 && 1 ≤ mo && mo ≤ 12 && 1 ≤ d && d ≤ daysInMonth y mo &&
    h ≤ 23 && mi ≤ 59 && s ≤ 59

/-- Model of Python `datetime.datetime.fromisoformat` (standard library,
external to this repository), restricted to the shapes the repository's
ISO-8601 timestamps take: `YYYY-MM-DD`, optionally followed by a
one-character separator and `HH[:MM[:SS]]`, optionally followed by a `±HH:MM`
UTC offset.  Fractional seconds and second-resolution offsets are not
modelled.  Returns `none` where Python raises `ValueError`. -/
def fromisoformat (str : String) : Option PyDateTime := do
  let (y, r1) ← readFixedNat 4 0 str.data
  let r2 ← expectChar '-' r1
  let (mo, r3) ← readFixedNat 2 0 r2
  let r4 ← expectChar '-' r3
  let (d, r5) ← readFixedNat 2 0 r4
  let (h, mi, s, off) ←
    (match r5 with
     | [] => some (0, 0, 0, (none : Option ℤ))
     | _sep :: rest => do
        let (timeCs, tzPart) := findSign rest
        match tzPart with
        | none => do
          let (h, mi, s) ← parseHMS timeCs
          pure (h, mi, s, (none : Option ℤ))
        | some (neg, offCs) => do
          let (h, mi, s) ← parseHMS timeCs
          let (oh, om) ← parseOffsetHM offCs
          if oh ≤ 23 && om ≤ 59 then
            pure (h, mi, s, some ((if neg then (-1 : ℤ) else 1) * ((oh : ℤ) * 60 + (om : ℤ))))
          else none)
  if validDateTime y mo d h mi s then
    some ⟨y, mo, d, h, mi, s, off⟩
  else none

/-- Days since 1970-01-01 of a proleptic Gregorian date (the standard
civil-from-days calendar algorithm), used to model datetime subtraction. -/
def daysFromCivil (y m d : ℤ) : ℤ :=
  let yAdj := if m ≤ 2 then y - 1 else y
  let era := Int.fdiv yAdj 400
  let yoe := yAdj - era * 400
  let mp := (m + 9) % 12
  let doy := (153 * mp + 2) / 5 + d - 1
  let doe := yoe * 365 + yoe / 4 - yoe / 100 + doy
  era * 146097 + doe - 719468

/-- Seconds of a datetime on its own (naive) clock. -/
def localSeconds (t : PyDateTime) : ℤ :=
  daysFromCivil (t.year : ℤ) (t.month : ℤ) (t.day : ℤ) * 86400 +
    (t.hour : ℤ) * 3600 + (t.minute : ℤ) * 60 + (t.second : ℤ)

/-- The key Python uses to compare and subtract datetimes: naive datetimes
compare on their own clock, aware datetimes on the UTC instant. -/
def cmpSeconds (t : PyDateTime) : ℤ :=
  match t.tzOffsetMinutes with
  | some off => localSeconds t - off * 60
  | none => localSeconds t

/-- Python can order a list of datetimes only when they are all aware or all
naive; `max`/`min` over a mixed list of two or more raises `TypeError`. -/
def comparableDates (l : List PyDateTime) : Bool :=
  l.all (fun t => t.tzOffsetMinutes.isSome) || l.all (fun t => t.tzOffsetMinutes.isNone)

/-- `max` of a list of integers (junk `0` on the empty list; call sites have at
least two elements). -/
def listMaxZ : List ℤ → ℤ
  | [] => 0
  | x :: xs => xs.foldl max x

/-- `min` of a list of integers (junk `0` on the empty list). -/
def listMinZ : List ℤ → ℤ
  | [] => 0
  | x :: xs => xs.foldl min x

/-! ## Posting cadence aggregator (`_analyze_posting_patterns`) -/

/-- The dict returned by `_analyze_posting_patterns` on the non-raising paths. -/
structure PostingResult where
  frequency : String
  optimal_time : String
  consistency : String
deriving Repr, DecidableEq

/-- The truthy timestamp strings of the posts, in post order — the generator
part of the `post_dates` comprehension. -/
def timestampsOf (posts : List Post) : List String :=
  posts.filterMap (fun p => if truthyStr p.timestamp then p.timestamp else none)

/-- The `post_dates` list comprehension: parse each truthy timestamp after the
`Z` replacement, raising `ValueError` at the first malformed one. -/
def parseTimestamps : List String → Except String (List PyDateTime)
  | [] => .ok []
  | t :: ts =>
      match fromisoformat (replaceZ t) with
      | none => .error "ValueError: Invalid isoformat string"
      | some d => (parseTimestamps ts).map (fun ds => d :: ds)

/-- `InstagramAnalyzer._analyze_posting_patterns`.  `Except.error` models an
exception escaping the method (`ValueError` from `fromisoformat`, or
`TypeError` from comparing naive and aware datetimes). -/
def analyze_posting_patterns (posts : List Post) : Except String PostingResult :=
  if posts = [] then .ok ⟨"Unknown", "Unknown", "Unknown"⟩
  else
    match parseTimestamps (timestampsOf posts) with
    | .error e => .error e
    | .ok post_dates =>
      if post_dates.length < 2 then
        .ok ⟨"Insufficient data", "Unknown", "Unknown"⟩
      else if comparableDates post_dates then
        let secs := post_dates.map cmpSeconds
        let date_range : ℤ := Int.fdiv (listMaxZ secs - listMinZ secs) 86400
        let frequency : ℚ := (posts.length : ℚ) / max ((date_range : ℚ) / 7) 1
        let post_hours := post_dates.map PyDateTime.hour
        let optimal_hour := if post_hours ≠ [] then pyMode post_hours else 12
        .ok ⟨fmtOneDecimal frequency ++ " posts/week",
             pad2 optimal_hour ++ ":00",
             if 1 ≤ frequency ∧ frequency ≤ 5 then "Good"
             else if frequency < 1 then "Low" else "High"⟩
      else .error "TypeError: cannot compare naive and aware datetimes"

/-! ## Insight and suggestion generators, orchestrator -/

/-- `InstagramAnalyzer._generate_insights`. -/
def generate_insights (brand : BrandResult) (eng : EngagementResult)
    (sent : SentimentResult) : List String :=
  (if brand.consistency_score > 80 then
      ["Excellent brand consistency maintained across posts"]
   else if brand.consistency_score < 60 then
      ["Consider improving visual consistency for stronger brand identity"]
   else []) ++
  (if eng.rateGet > 3 then
      ["Outstanding engagement rate - well above industry average"]
   else if eng.rateGet < 1 then
      ["Engagement rate below average - consider more interactive content"]
   else []) ++
  (if sent.overallGet > 1/2 then
      ["Very positive audience sentiment - maintain authentic voice"]
   else if sent.overallGet < 0 then
      ["Consider adjusting content tone to improve audience sentiment"]
   else [])

/-- `InstagramAnalyzer._generate_mood_suggestions`. -/
def generate_mood_suggestions (brand : BrandResult) (sent : SentimentResult) :
    List String :=
  (if brand.consistency_score > 75 then
      ["Maintain current aesthetic direction - it\x27s working well"]
   else ["Develop a more cohesive visual style guide"]) ++
  (if sent.overallGet > 3/10 then
      ["Continue with positive, uplifting content themes"]
   else ["Incorporate more inspirational and positive messaging"]) ++
  ["Experiment with user-generated content to boost engagement",
   "Consider seasonal content adjustments while maintaining brand core",
   "Analyze competitor strategies for inspiration",
   "Plan content themes around trending topics in your niche"]

/-- The report dict assembled by `analyze_profile` (the wall-clock
`generated_at` field is omitted; no claim concerns it). -/
structure Report where
  username : Option String
  followers : Option ℤ
  following : Option ℤ
  posts_count : ℕ
  branding : BrandResult
  engagement : EngagementResult
  sentiment : SentimentResult
  posting : PostingResult
  insights : List String
  mood_suggestions : List String
deriving Repr, DecidableEq

/-- The value returned by `analyze_profile`: either the zero-posts error dict
or a full report. -/
inductive ProfileResult where
  | error (msg : String)
  | report (r : Report)
deriving Repr, DecidableEq

/-- `InstagramAnalyzer.analyze_profile`.  `Except.error` models an exception
escaping the method; the zero-posts `{"error": ...}` dict is a normal return. -/
def analyze_profile (E : Extractor) (profile_data : Profile) :
    Except String ProfileResult :=
  let posts := profile_data.posts
  if posts = [] then .ok (.error "No posts found for analysis")
  else
    let brand_analysis := analyze_brand_consistency E posts
    let engagement_analysis := analyze_engagement posts (profile_data.followers.getD 0)
    let sentiment_analysis := analyze_sentiment_posts E posts
    match analyze_posting_patterns posts with
    | .error e => .error e
    | .ok posting_analysis =>
    .ok (.report
      { username := profile_data.username
        followers := profile_data.followers
        following := profile_data.following
        posts_count := posts.length
        branding := brand_analysis
        engagement := engagement_analysis
        sentiment := sentiment_analysis
        posting := posting_analysis
        insights := generate_insights brand_analysis engagement_analysis sentiment_analysis
        mood_suggestions := generate_mood_suggestions brand_analysis sentiment_analysis })

/-! ## Bridging lemmas -/

/-- The parsed datetimes of a timestamp list, as a total function; agrees with
`parseTimestamps` when every timestamp parses. -/
def parsedDates (l : List String) : List PyDateTime :=
  l.filterMap (fun t => fromisoformat (replaceZ t))

lemma parseTimestamps_eq_ok (l : List String)
    (h : ∀ t ∈ l, (fromisoformat (replaceZ t)).isSome) :
    parseTimestamps l = .ok (parsedDates l) := by
  induction l with
  | nil => rfl
  | cons t ts ih =>
    obtain ⟨d, hd⟩ := Option.isSome_iff_exists.mp (h t (by simp))
    have hts : ∀ x ∈ ts, (fromisoformat (replaceZ x)).isSome :=
      fun x hx => h x (by simp [hx])
    have h1 : parseTimestamps (t :: ts) = (parseTimestamps ts).map (fun ds => d :: ds) := by
      simp [parseTimestamps, hd]
    have h2 : parsedDates (t :: ts) = d :: parsedDates ts := by
      simp [parsedDates, List.filterMap_cons, hd]
    rw [h1, h2, ih hts]
    rfl

lemma parsedDates_length (l : List String)
    (h : ∀ t ∈ l, (fromisoformat (replaceZ t)).isSome) :
    (parsedDates l).length = l.length := by
  induction l with
  | nil => rfl
  | cons t ts ih =>
    obtain ⟨d, hd⟩ := Option.isSome_iff_exists.mp (h t (by simp))
    have hts : ∀ x ∈ ts, (fromisoformat (replaceZ x)).isSome :=
      fun x hx => h x (by simp [hx])
    have h2 : parsedDates (t :: ts) = d :: parsedDates ts := by
      simp [parsedDates, List.filterMap_cons, hd]
    rw [h2]
    simp [ih hts]

lemma pyRound_zero (n : ℕ) : pyRound 0 n = 0 := by
  simp [pyRound, pyRoundInt]

/-- The `date_range` local variable of `_analyze_posting_patterns`. -/
def dateRangeDays (posts : List Post) : ℤ :=
  Int.fdiv
    (listMaxZ ((parsedDates (timestampsOf posts)).map cmpSeconds) -
      listMinZ ((parsedDates (timestampsOf posts)).map cmpSeconds)) 86400

/-- The `frequency` local variable of `_analyze_posting_patterns` (posts per
week). -/
def freqOf (posts : List Post) : ℚ :=
  (posts.length : ℚ) / max ((dateRangeDays posts : ℚ) / 7) 1

lemma posting_ok_eq (posts : List Post) (hne : posts ≠ [])
    (hp : ∀ t ∈ timestampsOf posts, (fromisoformat (replaceZ t)).isSome)
    (h2 : 2 ≤ (parsedDates (timestampsOf posts)).length)
    (hc : comparableDates (parsedDates (timestampsOf posts)) = true) :
    analyze_posting_patterns posts = .ok
      ⟨fmtOneDecimal (freqOf posts) ++ " posts/week",
       pad2 (pyMode ((parsedDates (timestampsOf posts)).map PyDateTime.hour)) ++ ":00",
       if 1 ≤ freqOf posts ∧ freqOf posts ≤ 5 then "Good"
       else if freqOf posts < 1 then "Low" else "High"⟩ := by
  have hlen : ¬ (parsedDates (timestampsOf posts)).length < 2 := by omega
  have hhours : (parsedDates (timestampsOf posts)).map PyDateTime.hour ≠ [] := by
    intro hx
    rw [List.map_eq_nil_iff] at hx
    rw [hx] at h2
    simp at h2
  simp [analyze_posting_patterns, hne, parseTimestamps_eq_ok _ hp, hlen, hc, hhours,
    freqOf, dateRangeDays]

/-- Extractor whose sentiment oracle returns the constant `q` (no images, no
colors); used to instantiate concrete scenarios. -/
def constExtractor (q : ℚ) : Extractor := ⟨fun _ => [], fun _ _ => 0, fun _ => q⟩

/-! ## C2: sentiment boundary behaviour -/

/-- C2 counterexample: with a single caption whose sentiment score is exactly
-0.3, the average sentiment is exactly -0.3 and `_analyze_sentiment` labels the
emotional tone "Negative", not "Neutral" as the claim states (`-0.3 > -0.3` is
false, so the `else` branch is taken). -/
theorem C2_counterexample :
    pyMean ((captionsOf [{ caption := some "x" }]).map
        (constExtractor (-(3/10))).analyze_sentiment) = -(3/10) ∧
    (analyze_sentiment_posts (constExtractor (-(3/10)))
        [{ caption := some "x" }]).toneGet = "Negative" ∧
    ("Negative" : String) ≠ "Neutral" := by
  refine ⟨?_, ?_, by decide⟩
  · simp only [show captionsOf [{ caption := some "x" }] = ["x"] from rfl, List.map]
    norm_num [pyMean, constExtractor]
  · simp only [analyze_sentiment_posts,
      show captionsOf [{ caption := some "x" }] = ["x"] from rfl, List.map]
    norm_num [pyMean, pyRound, pyRoundInt, constExtractor, SentimentResult.toneGet]

/-- C2 amended: when the posts have at least one non-empty caption, an average
sentiment of exactly 0.3 gives emotional tone "Positive" (not "Very
Positive"), an average of exactly -0.3 gives "Negative" (not "Neutral" — the
`> -0.3` threshold is strict), and an average of exactly 0 gives trend
"Negative". -/
theorem C2_sentiment_boundaries (E : Extractor) (posts : List Post)
    (h : captionsOf posts ≠ []) :
    (pyMean ((captionsOf posts).map E.analyze_sentiment) = 3/10 →
      (analyze_sentiment_posts E posts).toneGet = "Positive") ∧
    (pyMean ((captionsOf posts).map E.analyze_sentiment) = -(3/10) →
      (analyze_sentiment_posts E posts).toneGet = "Negative") ∧
    (pyMean ((captionsOf posts).map E.analyze_sentiment) = 0 →
      (analyze_sentiment_posts E posts).trendGet = "Negative") := by
  have hm : (captionsOf posts).map E.analyze_sentiment ≠ [] := by
    simpa using h
  refine ⟨fun hq => ?_, fun hq => ?_, fun hq => ?_⟩ <;>
    simp only [analyze_sentiment_posts, hm, if_neg, ite_false, hq] <;>
    norm_num [SentimentResult.toneGet, SentimentResult.trendGet]

/-- C2 witness: a concrete post list with average sentiment exactly 0.3 is
labelled "Positive". -/
theorem C2_sentiment_boundaries_witness :
    (analyze_sentiment_posts (constExtractor (3/10)) [{ caption := some "x" }]).toneGet
      = "Positive" :=
  (C2_sentiment_boundaries (constExtractor (3/10)) [{ caption := some "x" }]
    (by decide)).1
    (by simp only [show captionsOf [{ caption := some "x" }] = ["x"] from rfl, List.map]
        norm_num [pyMean, constExtractor])

/-! ## C3: fewer than two valid timestamps -/

/-- C3 counterexample: with exactly one (valid) timestamp the cadence
aggregator returns "Insufficient data" for `frequency` but "Unknown" — not
"Insufficient data" — for `optimal_time` and `consistency`. -/
theorem C3_counterexample :
    analyze_posting_patterns [{ timestamp := some "2025-01-01T10:00:00" }] =
      .ok ⟨"Insufficient data", "Unknown", "Unknown"⟩ ∧
    (PostingResult.mk "Insufficient data" "Unknown" "Unknown").optimal_time
      ≠ "Insufficient data" ∧
    (PostingResult.mk "Insufficient data" "Unknown" "Unknown").consistency
      ≠ "Insufficient data" :=
  ⟨rfl, by decide, by decide⟩

/-- C3 amended: for a non-empty post list whose present timestamps all parse,
if fewer than 2 posts carry a (truthy) timestamp then the cadence aggregator
returns "Insufficient data" for `frequency` and "Unknown" for `optimal_time`
and `consistency`. -/
theorem C3_insufficient_data (posts : List Post) (hne : posts ≠ [])
    (hp : ∀ t ∈ timestampsOf posts, (fromisoformat (replaceZ t)).isSome)
    (hlt : (timestampsOf posts).length < 2) :
    analyze_posting_patterns posts =
      .ok ⟨"Insufficient data", "Unknown", "Unknown"⟩ := by
  have hlen : (parsedDates (timestampsOf posts)).length < 2 := by
    rw [parsedDates_length _ hp]
    exact hlt
  simp [analyze_posting_patterns, hne, parseTimestamps_eq_ok _ hp, hlen]

/-- C3 witness: concrete single-valid-timestamp instance of the amended claim. -/
theorem C3_insufficient_data_witness :
    analyze_posting_patterns [{ timestamp := some "2025-02-01T08:00:00" }] =
      .ok ⟨"Insufficient data", "Unknown", "Unknown"⟩ :=
  C3_insufficient_data _ (by decide) (by decide) (by decide)

/-! ## C4: engagement on empty posts and zero followers -/

/-- C4 counterexample: for an empty post list `_analyze_engagement` returns the
`{"error": "No posts to analyze"}` dict — a value with no `avg_likes` or
`avg_comments` fields at all — rather than a result with `avg_likes = 0`. -/
theorem C4_counterexample :
    analyze_engagement [] 5 = .error "No posts to analyze" := rfl

/-- C4 amended: for the empty post list the engagement aggregator returns the
error dict (not zero averages); whenever `follower_count ≤ 0` the reported
engagement rate is 0 regardless of likes and comments (the only division by
`followers` is guarded by `followers > 0`, so no division by zero occurs). -/
theorem C4_engagement_guards (posts : List Post) (followers : ℤ) :
    (posts = [] → analyze_engagement posts followers = .error "No posts to analyze") ∧
    (followers ≤ 0 → (analyze_engagement posts followers).rateGet = 0) := by
  constructor
  · intro h
    simp [analyze_engagement, h]
  · intro hf
    by_cases hp : posts = []
    · simp [analyze_engagement, hp, EngagementResult.rateGet]
    · have hgt : ¬ (followers > 0) := by omega
      simp [analyze_engagement, hp, hgt, EngagementResult.rateGet, pyRound_zero]

/-- C4 witness: concrete instances of both conjuncts of the amended claim. -/
theorem C4_engagement_guards_witness :
    analyze_engagement ([] : List Post) 7 = .error "No posts to analyze" ∧
    (analyze_engagement [{ likes := some 3 }] 0).rateGet = 0 :=
  ⟨(C4_engagement_guards [] 7).1 rfl, (C4_engagement_guards [{ likes := some 3 }] 0).2 le_rfl⟩

/-! ## C10: mood suggestions -/

/-- C10: for every input the suggestion list has exactly 6 entries — one of
the two branding suggestions chosen by `consistency_score > 75`, then one of
the two sentiment suggestions chosen by `overall > 0.3`, then the fixed tail
of 4 generic suggestions in order. -/
theorem C10_mood_suggestions (brand : BrandResult) (sent : SentimentResult) :
    (generate_mood_suggestions brand sent).length = 6 ∧
    generate_mood_suggestions brand sent =
      (if brand.consistency_score > 75 then
        "Maintain current aesthetic direction - it\x27s working well"
       else "Develop a more cohesive visual style guide") ::
      (if sent.overallGet > 3/10 then
        "Continue with positive, uplifting content themes"
       else "Incorporate more inspirational and positive messaging") ::
      ["Experiment with user-generated content to boost engagement",
       "Consider seasonal content adjustments while maintaining brand core",
       "Analyze competitor strategies for inspiration",
       "Plan content themes around trending topics in your niche"] := by
  unfold generate_mood_suggestions
  constructor <;> split <;> split <;> simp

/-! ## C8: engagement trend windows -/

lemma getD_map_add {α : Type} (l : List α) (f g : α → ℤ) (i : ℕ) :
    (l.map f).getD i 0 + (l.map g).getD i 0 = (l.map (fun x => f x + g x)).getD i 0 := by
  rcases lt_or_ge i l.length with h | h
  · simp [List.getD_eq_getElem?_getD, List.getElem?_map, List.getElem?_eq_getElem h]
  · have hnone : l[i]? = none := List.getElem?_eq_none h
    simp [List.getD_eq_getElem?_getD, List.getElem?_map, hnone]

lemma map_range_getD {α β : Type} (l : List α) (f : α → β) (d : β) :
    ∀ k, k ≤ l.length →
      (List.range k).map (fun i => (l.map f).getD i d) = (l.take k).map f := by
  intro k
  induction k with
  | zero => intro _; rfl
  | succ k ih =>
    intro hk
    have hkl : k < l.length := hk
    have hk1 : (l.map f).getD k d = f l[k] := by
      rw [List.getD_eq_getElem?_getD, List.getElem?_map, List.getElem?_eq_getElem hkl]
      rfl
    rw [List.range_succ, List.map_append, ih (Nat.le_of_succ_le hk), List.take_succ,
      List.getElem?_eq_getElem hkl]
    simp only [List.map_cons, List.map_nil, Option.toList_some, List.map_append, hk1]

lemma map_range'_getD {α β : Type} (l : List α) (f : α → β) (d : β) :
    ∀ k a, a + k ≤ l.length →
      (List.range' a k).map (fun i => (l.map f).getD i d) = ((l.drop a).take k).map f := by
  intro k
  induction k with
  | zero => intro a _; rfl
  | succ k ih =>
    intro a hk
    have hal : a < l.length := by omega
    have ha1 : (l.map f).getD a d = f l[a] := by
      rw [List.getD_eq_getElem?_getD, List.getElem?_map, List.getElem?_eq_getElem hal]
      rfl
    rw [List.range'_succ, List.map_cons, ih (a + 1) (by omega),
      List.drop_eq_getElem_cons hal]
    simp only [ha1, List.take_succ_cons, List.map_cons]

/-- The claim's "recent" window: mean of likes+comments over the first
min(3, N) posts in input order. -/
def recentMean (posts : List Post) : ℚ :=
  pyMean ((posts.take (min 3 posts.length)).map
    (fun p => ((p.likes.getD 0 + p.comments.getD 0 : ℤ) : ℚ)))

/-- The claim's "older" window: mean of likes+comments over the last
min(3, N) posts in input order. -/
def olderMean (posts : List Post) : ℚ :=
  pyMean ((posts.drop (posts.length - 3)).map
    (fun p => ((p.likes.getD 0 + p.comments.getD 0 : ℤ) : ℚ)))

lemma engagement_trendGet (posts : List Post) (followers : ℤ) (h : posts ≠ []) :
    (analyze_engagement posts followers).trendGet =
      if recentMean posts > olderMean posts then "Increasing"
      else if recentMean posts < olderMean posts then "Decreasing" else "Stable" := by
  have hrec :
      (List.range (min 3 posts.length)).map
        (fun i => (((posts.map (fun p => p.likes.getD 0)).getD i 0 +
                    (posts.map (fun p => p.comments.getD 0)).getD i 0 : ℤ) : ℚ)) =
      (posts.take (min 3 posts.length)).map
        (fun p => ((p.likes.getD 0 + p.comments.getD 0 : ℤ) : ℚ)) := by
    simp only [getD_map_add]
    calc (List.range (min 3 posts.length)).map
          (fun i => (((posts.map (fun p => p.likes.getD 0 + p.comments.getD 0)).getD i 0 : ℤ) : ℚ))
        = ((List.range (min 3 posts.length)).map
            (fun i => (posts.map (fun p => p.likes.getD 0 + p.comments.getD 0)).getD i 0)).map
            (fun z : ℤ => (z : ℚ)) := by
          rw [List.map_map]
          rfl
      _ = ((posts.take (min 3 posts.length)).map
            (fun p => p.likes.getD 0 + p.comments.getD 0)).map (fun z : ℤ => (z : ℚ)) := by
          rw [map_range_getD posts _ 0 (min 3 posts.length) (min_le_right _ _)]
      _ = _ := by
          rw [List.map_map]
          rfl
  have hold :
      (List.range' (posts.length - 3) (posts.length - (posts.length - 3))).map
        (fun i => (((posts.map (fun p => p.likes.getD 0)).getD i 0 +
                    (posts.map (fun p => p.comments.getD 0)).getD i 0 : ℤ) : ℚ)) =
      (posts.drop (posts.length - 3)).map
        (fun p => ((p.likes.getD 0 + p.comments.getD 0 : ℤ) : ℚ)) := by
    simp only [getD_map_add]
    calc (List.range' (posts.length - 3) (posts.length - (posts.length - 3))).map
          (fun i => (((posts.map (fun p => p.likes.getD 0 + p.comments.getD 0)).getD i 0 : ℤ) : ℚ))
        = ((List.range' (posts.length - 3) (posts.length - (posts.length - 3))).map
            (fun i => (posts.map (fun p => p.likes.getD 0 + p.comments.getD 0)).getD i 0)).map
            (fun z : ℤ => (z : ℚ)) := by
          rw [List.map_map]
          rfl
      _ = (((posts.drop (posts.length - 3)).take (posts.length - (posts.length - 3))).map
            (fun p => p.likes.getD 0 + p.comments.getD 0)).map (fun z : ℤ => (z : ℚ)) := by
          rw [map_range'_getD posts _ 0 (posts.length - (posts.length - 3))
            (posts.length - 3) (by omega)]
      _ = _ := by
          rw [List.take_of_length_le (by rw [List.length_drop]),
            List.map_map]
          rfl
  simp only [analyze_engagement]
  rw [if_neg h, hrec, hold]
  simp only [EngagementResult.trendGet, recentMean, olderMean]

/-- C8: the engagement trend compares the mean likes+comments of the first
min(3, N) posts ("recent") against the last min(3, N) posts ("older") in input
order, yielding "Increasing"/"Decreasing"/"Stable"; and the one-post scenario
(likes=100, comments=10, followers=10000) produces avg_likes=100,
avg_comments=10, engagement_rate=1.10 and trend "Stable". -/
theorem C8_engagement_trend (posts : List Post) (followers : ℤ) (h : posts ≠ []) :
    ((analyze_engagement posts followers).trendGet = "Increasing" ↔
      olderMean posts < recentMean posts) ∧
    ((analyze_engagement posts followers).trendGet = "Decreasing" ↔
      recentMean posts < olderMean posts) ∧
    ((analyze_engagement posts followers).trendGet = "Stable" ↔
      recentMean posts = olderMean posts) ∧
    analyze_engagement [{ likes := some 100, comments := some 10 }] 10000 =
      .ok 100 10 (11/10) "Stable" := by
  rw [engagement_trendGet posts followers h]
  refine ⟨?_, ?_, ?_, ?_⟩
  · split_ifs with h1 h2 <;> simp_all <;> linarith
  · split_ifs with h1 h2 <;> simp_all <;> linarith
  · split_ifs with h1 h2 <;> simp_all <;> linarith
  · simp only [analyze_engagement]
    norm_num [pyMean, pyRound, pyRoundInt, List.range_succ, List.range_zero]

/-- C8 witness: the theorem applied to the concrete one-post scenario. -/
theorem C8_engagement_trend_witness :
    analyze_engagement [{ likes := some 100, comments := some 10 }] 10000 =
      .ok 100 10 (11/10) "Stable" :=
  (C8_engagement_trend [{ likes := some 100, comments := some 10 }] 10000
    (by decide)).2.2.2

/-! ## C7: brand categorical thresholds -/

/-- C7: the categorical brand labels use strict greater-than thresholds with
first match winning, applied to the (unrounded) `consistency_score` local
value — "Low"/"Moderate"/"High" at 80/60 and "Strong"/"Moderate"/"Weak" at
75/50; a score of exactly 80 gives variance "Moderate", exactly 75 gives
alignment "Moderate"; and with no collected alignment scores the reported
`consistency_score` is 0. -/
theorem C7_brand_thresholds (E : Extractor) (posts : List Post) :
    ((analyze_brand_consistency E posts).color_variance = "Low" ↔
      80 < rawConsistencyScore E posts) ∧
    ((analyze_brand_consistency E posts).color_variance = "Moderate" ↔
      (60 < rawConsistencyScore E posts ∧ rawConsistencyScore E posts ≤ 80)) ∧
    ((analyze_brand_consistency E posts).color_variance = "High" ↔
      rawConsistencyScore E posts ≤ 60) ∧
    ((analyze_brand_consistency E posts).brand_alignment = "Strong" ↔
      75 < rawConsistencyScore E posts) ∧
    ((analyze_brand_consistency E posts).brand_alignment = "Moderate" ↔
      (50 < rawConsistencyScore E posts ∧ rawConsistencyScore E posts ≤ 75)) ∧
    ((analyze_brand_consistency E posts).brand_alignment = "Weak" ↔
      rawConsistencyScore E posts ≤ 50) ∧
    (rawConsistencyScore E posts = 80 →
      (analyze_brand_consistency E posts).color_variance = "Moderate") ∧
    (rawConsistencyScore E posts = 75 →
      (analyze_brand_consistency E posts).brand_alignment = "Moderate") ∧
    (aestheticScores E posts = [] →
      (analyze_brand_consistency E posts).consistency_score = 0) := by
  simp only [analyze_brand_consistency]
  refine ⟨?_, ?_, ?_, ?_, ?_, ?_, fun h80 => ?_, fun h75 => ?_, fun hnil => ?_⟩
  · split_ifs with h1 h2 <;> simp_all <;> linarith
  · split_ifs with h1 h2 <;> simp_all <;> constructor <;> intro <;> linarith
  · split_ifs with h1 h2 <;> simp_all <;> linarith
  · split_ifs with h1 h2 <;> simp_all <;> linarith
  · split_ifs with h1 h2 <;> simp_all <;> constructor <;> intro <;> linarith
  · split_ifs with h1 h2 <;> simp_all <;> linarith
  · rw [h80]
    norm_num
  · rw [h75]
    norm_num
  · simp [rawConsistencyScore, hnil, pyRound_zero]

/-- C7 witness: a single post whose CLIP alignment score is exactly 0.8 gives
an unrounded score of exactly 80 and the label "Moderate"; one with exactly
0.75 gives 75 and alignment "Moderate". -/
theorem C7_brand_thresholds_witness :
    (analyze_brand_consistency ⟨fun _ => [], fun _ _ => 8/10, fun _ => 0⟩
      [{ image_url := some "u" }]).color_variance = "Moderate" ∧
    (analyze_brand_consistency ⟨fun _ => [], fun _ _ => 75/100, fun _ => 0⟩
      [{ image_url := some "u" }]).brand_alignment = "Moderate" :=
  ⟨(C7_brand_thresholds ⟨fun _ => [], fun _ _ => 8/10, fun _ => 0⟩
      [{ image_url := some "u" }]).2.2.2.2.2.2.1
      (by norm_num [rawConsistencyScore, aestheticScores,
        show imageUrls [{ image_url := some "u" }] = ["u"] from rfl, pyMean]),
   (C7_brand_thresholds ⟨fun _ => [], fun _ _ => 75/100, fun _ => 0⟩
      [{ image_url := some "u" }]).2.2.2.2.2.2.2.1
      (by norm_num [rawConsistencyScore, aestheticScores,
        show imageUrls [{ image_url := some "u" }] = ["u"] from rfl, pyMean])⟩

/-! ## C9: posting frequency formula -/

/-- C9: frequency is post count divided by `max(date_range_days/7, 1)` weeks,
where `date_range_days` is the day span between the extreme parsed timestamps;
the consistency label follows the Good/Low/High bands of that frequency; when
all timestamps coincide the divisor floors to 1 week; and two posts exactly 14
days apart give "1.0 posts/week" with consistency "Good". -/
theorem C9_posting_frequency (posts : List Post) (hne : posts ≠ [])
    (hp : ∀ t ∈ timestampsOf posts, (fromisoformat (replaceZ t)).isSome)
    (h2 : 2 ≤ (parsedDates (timestampsOf posts)).length)
    (hc : comparableDates (parsedDates (timestampsOf posts)) = true) :
    (∃ pr, analyze_posting_patterns posts = .ok pr ∧
      pr.frequency = fmtOneDecimal (freqOf posts) ++ " posts/week" ∧
      freqOf posts = (posts.length : ℚ) / max ((dateRangeDays posts : ℚ) / 7) 1 ∧
      (pr.consistency = "Good" ↔ (1 ≤ freqOf posts ∧ freqOf posts ≤ 5)) ∧
      (pr.consistency = "Low" ↔ freqOf posts < 1) ∧
      (pr.consistency = "High" ↔ 5 < freqOf posts) ∧
      (listMaxZ ((parsedDates (timestampsOf posts)).map cmpSeconds) =
          listMinZ ((parsedDates (timestampsOf posts)).map cmpSeconds) →
        pr.frequency = fmtOneDecimal (posts.length : ℚ) ++ " posts/week")) ∧
    analyze_posting_patterns
      [{ timestamp := some "2025-01-01T10:00:00" },
       { timestamp := some "2025-01-15T10:00:00" }] =
      .ok ⟨"1.0 posts/week", "10:00", "Good"⟩ := by
  constructor
  · refine ⟨_, posting_ok_eq posts hne hp h2 hc, rfl, rfl, ?_, ?_, ?_, ?_⟩
    · split_ifs with h1 h2x <;> simp_all <;> linarith
    · split_ifs with h1 h2x <;> simp_all <;> push_neg at * <;> linarith
    · split_ifs with h1 h2x <;> simp_all <;> push_neg at * <;> linarith
    · intro hsame
      have hdr : dateRangeDays posts = 0 := by
        simp [dateRangeDays, hsame, Int.zero_fdiv]
      have hfe : freqOf posts = (posts.length : ℚ) := by
        rw [freqOf, hdr]
        norm_num [max_def]
      rw [hfe]
  · have key := posting_ok_eq
      [{ timestamp := some "2025-01-01T10:00:00" },
       { timestamp := some "2025-01-15T10:00:00" }]
      (by decide) (by decide) (by decide) (by decide)
    have hdr : dateRangeDays
        [{ timestamp := some "2025-01-01T10:00:00" },
         ({ timestamp := some "2025-01-15T10:00:00" } : Post)] = 14 := rfl
    have hf : freqOf
        [{ timestamp := some "2025-01-01T10:00:00" },
         ({ timestamp := some "2025-01-15T10:00:00" } : Post)] = 1 := by
      rw [freqOf, hdr]
      norm_num [max_def]
    have hfmt : fmtOneDecimal 1 = "1.0" := by
      have h10 : pyRoundInt (10 : ℚ) = 10 := by norm_num [pyRoundInt]
      simp only [fmtOneDecimal, show ((1 : ℚ) * 10) = 10 by norm_num, h10]
      decide
    have hgood : (if (1 : ℚ) ≤ 1 ∧ (1 : ℚ) ≤ 5 then "Good"
        else if (1 : ℚ) < 1 then "Low" else "High") = "Good" := by
      norm_num
    rw [key, hf, hfmt, hgood]
    rfl

/-- C9 witness: the theorem instantiated at the concrete 14-days-apart posts. -/
theorem C9_posting_frequency_witness :
    analyze_posting_patterns
      [{ timestamp := some "2025-01-01T10:00:00" },
       { timestamp := some "2025-01-15T10:00:00" }] =
      .ok ⟨"1.0 posts/week", "10:00", "Good"⟩ :=
  (C9_posting_frequency
    [{ timestamp := some "2025-01-01T10:00:00" },
     { timestamp := some "2025-01-15T10:00:00" }]
    (by decide) (by decide) (by decide) (by decide)).2

/-! ## C1: analyze_profile never raises -/

lemma posting_patterns_isOk (posts : List Post)
    (hp : ∀ t ∈ timestampsOf posts, (fromisoformat (replaceZ t)).isSome)
    (hc : comparableDates (parsedDates (timestampsOf posts)) = true) :
    ∃ pr, analyze_posting_patterns posts = .ok pr := by
  by_cases hne : posts = []
  · exact ⟨⟨"Unknown", "Unknown", "Unknown"⟩, by simp [analyze_posting_patterns, hne]⟩
  · by_cases h2 : (parsedDates (timestampsOf posts)).length < 2
    · exact ⟨⟨"Insufficient data", "Unknown", "Unknown"⟩,
        by simp [analyze_posting_patterns, hne, parseTimestamps_eq_ok _ hp, h2]⟩
    · exact ⟨_, posting_ok_eq posts hne hp (by omega) hc⟩

/-- C1 counterexample: a non-empty post list carrying a malformed timestamp
string makes `analyze_profile` raise: `datetime.fromisoformat` raises
`ValueError`, which propagates out of `_analyze_posting_patterns` and
`analyze_profile` uncaught. -/
theorem C1_counterexample :
    ({ posts := [{ timestamp := some "not-a-date" }] } : Profile).posts ≠ [] ∧
    analyze_profile (constExtractor 0)
      { posts := [{ timestamp := some "not-a-date" }] } =
      .error "ValueError: Invalid isoformat string" ∧
    (analyze_profile (constExtractor 0)
      { posts := [{ timestamp := some "not-a-date" }] }).isOk = false :=
  ⟨by decide, rfl, rfl⟩

/-- C1 amended: `analyze_profile` returns a value (no exception) provided every
truthy timestamp string on a post parses as ISO-8601 (after the Z
replacement) and the parsed timestamps are uniformly aware or uniformly
naive; for the empty post list it returns the documented zero-posts error
object. -/
theorem C1_no_raise (E : Extractor) (p : Profile)
    (hp : ∀ t ∈ timestampsOf p.posts, (fromisoformat (replaceZ t)).isSome)
    (hc : comparableDates (parsedDates (timestampsOf p.posts)) = true) :
    (analyze_profile E p).isOk = true ∧
    (p.posts = [] → analyze_profile E p = .ok (.error "No posts found for analysis")) := by
  constructor
  · by_cases hne : p.posts = []
    · simp [analyze_profile, hne, Except.isOk, Except.toBool]
    · obtain ⟨pr, hpr⟩ := posting_patterns_isOk p.posts hp hc
      simp [analyze_profile, hne, hpr, Except.isOk, Except.toBool]
  · intro h
    simp [analyze_profile, h]

/-- C1 witness: a profile with two well-formed `Z`-suffixed timestamps is
analyzed without raising. -/
theorem C1_no_raise_witness :
    (analyze_profile (constExtractor 0)
      { posts := [{ timestamp := some "2025-08-01T10:00:00Z" },
                  { timestamp := some "2025-08-02T11:00:00Z" }] }).isOk = true :=
  (C1_no_raise (constExtractor 0)
    { posts := [{ timestamp := some "2025-08-01T10:00:00Z" },
                { timestamp := some "2025-08-02T11:00:00Z" }] }
    (by decide) (by decide)).1

/-! ## C5: optimal posting hour and mode tie-breaking -/

/-- The fold inside `statistics.mode`: scan the candidate values, replacing the
current best only on a strictly greater count, so the earliest maximum wins. -/
def pickMax {α : Type} (f : α → ℕ) (k : α) (ks : List α) : α :=
  ks.foldl (fun best c => if f c > f best then c else best) k

lemma pickMax_spec {α : Type} (f : α → ℕ) :
    ∀ (ks : List α) (k : α),
      pickMax f k ks ∈ k :: ks ∧
      (∀ x ∈ k :: ks, f x ≤ f (pickMax f k ks)) ∧
      ∃ pre suf, k :: ks = pre ++ pickMax f k ks :: suf ∧
        ∀ x ∈ pre, f x < f (pickMax f k ks) := by
  intro ks
  induction ks with
  | nil =>
    intro k
    refine ⟨by simp [pickMax], by simp [pickMax], [], [], by simp [pickMax], by simp⟩
  | cons c cs ih =>
    intro k
    by_cases hck : f c > f k
    · have hfold : pickMax f k (c :: cs) = pickMax f c cs := by
        simp [pickMax, hck]
      obtain ⟨hmem, hle, pre, suf, hsplit, hpre⟩ := ih c
      rw [hfold]
      have hcb : f c ≤ f (pickMax f c cs) := hle c (by simp)
      refine ⟨List.mem_cons_of_mem k hmem, ?_, k :: pre, suf, ?_, ?_⟩
      · intro x hx
        rcases List.mem_cons.mp hx with rfl | hx2
        · omega
        · exact hle x hx2
      · rw [List.cons_append, ← hsplit]
      · intro x hx
        rcases List.mem_cons.mp hx with rfl | hx2
        · omega
        · exact hpre x hx2
    · have hfold : pickMax f k (c :: cs) = pickMax f k cs := by
        simp [pickMax, hck]
      obtain ⟨hmem, hle, pre, suf, hsplit, hpre⟩ := ih k
      rw [hfold]
      have hkb : f k ≤ f (pickMax f k cs) := hle k (by simp)
      have hcsle : ∀ x ∈ cs, f x ≤ f (pickMax f k cs) :=
        fun x hx => hle x (List.mem_cons_of_mem k hx)
      refine ⟨?_, ?_, ?_⟩
      · rcases List.mem_cons.mp hmem with hbk | hmem2
        · rw [hbk]
          exact List.mem_cons_self _ _
        · exact List.mem_cons_of_mem k (List.mem_cons_of_mem c hmem2)
      · intro x hx
        rcases List.mem_cons.mp hx with rfl | hx2
        · exact hkb
        rcases List.mem_cons.mp hx2 with rfl | hx3
        · omega
        · exact hcsle x hx3
      · rcases pre with _ | ⟨k0, pre2⟩
        · simp only [List.nil_append, List.cons.injEq] at hsplit
          obtain ⟨hbk, _⟩ := hsplit
          refine ⟨[], c :: cs, ?_, by simp⟩
          rw [List.nil_append, ← hbk]
        · simp only [List.cons_append, List.cons.injEq] at hsplit
          obtain ⟨hk0, hcs⟩ := hsplit
          refine ⟨k :: c :: pre2, suf, ?_, ?_⟩
          · rw [show ((k :: c :: pre2) ++ pickMax f k cs :: suf) =
              k :: c :: (pre2 ++ pickMax f k cs :: suf) from rfl, ← hcs]
          · intro x hx
            have hkpre : f k < f (pickMax f k cs) := by
              have h0 := hpre k0 (by simp)
              rwa [← hk0] at h0
            rcases List.mem_cons.mp hx with rfl | hx2
            · exact hkpre
            rcases List.mem_cons.mp hx2 with rfl | hx3
            · omega
            · exact hpre x (List.mem_cons_of_mem k0 hx3)

lemma mem_firstKeys {α : Type} [DecidableEq α] (l : List α) (x : α) :
    x ∈ firstKeys l ↔ x ∈ l := by
  induction l with
  | nil => simp [firstKeys]
  | cons a rest ih =>
    by_cases hxa : x = a
    · subst hxa
      simp [firstKeys]
    · simp [firstKeys, List.mem_filter, hxa, ih]

lemma pairwise_indexOf_firstKeys {α : Type} [DecidableEq α] (l : List α) :
    List.Pairwise (fun x y => l.indexOf x < l.indexOf y) (firstKeys l) := by
  induction l with
  | nil => simp [firstKeys]
  | cons a rest ih =>
    simp only [firstKeys]
    refine List.Pairwise.cons ?_ ?_
    · intro y hy
      have hya : y ≠ a := by
        have hmf := List.mem_filter.mp hy
        simpa using hmf.2
      rw [List.indexOf_cons_self, List.indexOf_cons_ne _ (Ne.symm hya)]
      exact Nat.succ_pos _
    · have hpw : List.Pairwise (fun x y => rest.indexOf x < rest.indexOf y)
          ((firstKeys rest).filter (fun b => b ≠ a)) :=
        List.Pairwise.sublist (List.filter_sublist _) ih
      refine hpw.imp_of_mem ?_
      intro x y hx hy hxy
      have hxa : x ≠ a := by
        have hmf := List.mem_filter.mp hx
        simpa using hmf.2
      have hya : y ≠ a := by
        have hmf := List.mem_filter.mp hy
        simpa using hmf.2
      rw [List.indexOf_cons_ne _ (Ne.symm hxa), List.indexOf_cons_ne _ (Ne.symm hya)]
      exact Nat.succ_lt_succ hxy

/-- The three properties of `statistics.mode` on a non-empty list: the result
occurs in the data, it has maximal count, and among values of maximal count it
has the smallest index of first occurrence (i.e. it is the value first
encountered in the data). -/
lemma pyMode_spec (l : List ℕ) (hne : l ≠ []) :
    pyMode l ∈ l ∧
    (∀ g ∈ l, l.count g ≤ l.count (pyMode l)) ∧
    (∀ g ∈ l, l.count g = l.count (pyMode l) →
      l.indexOf (pyMode l) ≤ l.indexOf g) := by
  obtain ⟨k, ks, hfk⟩ : ∃ k ks, firstKeys l = k :: ks := by
    cases l with
    | nil => exact absurd rfl hne
    | cons a rest => exact ⟨a, (firstKeys rest).filter (fun b => b ≠ a), rfl⟩
  have hpm : pyMode l = pickMax (fun x => l.count x) k ks := by
    unfold pyMode
    rw [hfk]
    rfl
  obtain ⟨hmem, hle, pre, suf, hsplit, hpre⟩ := pickMax_spec (fun x => l.count x) ks k
  rw [← hpm] at hmem hle hsplit hpre
  rw [← hfk] at hmem hle hsplit
  refine ⟨(mem_firstKeys l _).mp hmem, ?_, ?_⟩
  · intro g hg
    exact hle g ((mem_firstKeys l g).mpr hg)
  · intro g hg hcnt
    have hgfk : g ∈ firstKeys l := (mem_firstKeys l g).mpr hg
    rw [hsplit] at hgfk
    rcases List.mem_append.mp hgfk with hgpre | hgbs
    · have := hpre g hgpre
      omega
    · rcases List.mem_cons.mp hgbs with hgb | hgsuf
      · rw [hgb]
      · have hpw := pairwise_indexOf_firstKeys l
        rw [hsplit] at hpw
        have hps := (List.pairwise_append.mp hpw).2.1
        have hbg := (List.pairwise_cons.mp hps).1 g hgsuf
        exact le_of_lt hbg

/-- The `post_hours` list of the cadence aggregator: hour-of-day of each
parsed timestamp, in post order. -/
def postHours (posts : List Post) : List ℕ :=
  (parsedDates (timestampsOf posts)).map PyDateTime.hour

/-- The optimal_time field of a non-raising cadence result (sentinel on the
raising case). -/
def optimalTimeOf : Except String PostingResult → String
  | .ok pr => pr.optimal_time
  | .error _ => ""

/-- The tie-break rule C5 claims, written from the claim's words: among the
most frequent hours, take the smallest hour value. -/
def smallestModeHour (l : List ℕ) : ℕ :=
  let m := (l.map (fun h => l.count h)).foldl max 0
  (l.filter (fun h => l.count h = m)).foldl min 24

/-- C5 counterexample: two posts with hours 14 then 9 (each hour occurring
once).  The claimed smallest-hour tie-break would give "09:00", but
`statistics.mode` returns the first encountered value, so the code produces
"14:00". -/
theorem C5_counterexample :
    analyze_posting_patterns
      [{ timestamp := some "2025-01-01T14:00:00" },
       { timestamp := some "2025-01-03T09:00:00" }] =
      .ok ⟨"2.0 posts/week", "14:00", "Good"⟩ ∧
    postHours [{ timestamp := some "2025-01-01T14:00:00" },
               { timestamp := some "2025-01-03T09:00:00" }] = [14, 9] ∧
    pad2 (smallestModeHour [14, 9]) ++ ":00" = "09:00" ∧
    ("14:00" : String) ≠ "09:00" := by
  refine ⟨?_, rfl, by decide, by decide⟩
  have key := posting_ok_eq
    [{ timestamp := some "2025-01-01T14:00:00" },
     { timestamp := some "2025-01-03T09:00:00" }]
    (by decide) (by decide) (by decide) (by decide)
  have hdr : dateRangeDays
      [{ timestamp := some "2025-01-01T14:00:00" },
       ({ timestamp := some "2025-01-03T09:00:00" } : Post)] = 1 := rfl
  have hf : freqOf
      [{ timestamp := some "2025-01-01T14:00:00" },
       ({ timestamp := some "2025-01-03T09:00:00" } : Post)] = 2 := by
    rw [freqOf, hdr]
    norm_num [max_def]
  have hfmt : fmtOneDecimal 2 = "2.0" := by
    have h20 : pyRoundInt (20 : ℚ) = 20 := by norm_num [pyRoundInt]
    simp only [fmtOneDecimal, show ((2 : ℚ) * 10) = 20 by norm_num, h20]
    decide
  have hgood : (if (1 : ℚ) ≤ 2 ∧ (2 : ℚ) ≤ 5 then "Good"
      else if (2 : ℚ) < 1 then "Low" else "High") = "Good" := by
    norm_num
  rw [key, hf, hfmt, hgood]
  rfl

/-- C5 amended: for at least 2 valid timestamps the `optimal_time` is the most
frequent hour-of-day, zero-padded as "HH:00", with ties between equally
frequent hours broken by the hour encountered first in the data (the first
occurrence in input order), not by the smallest hour value. -/
theorem C5_optimal_time (posts : List Post) (hne : posts ≠ [])
    (hp : ∀ t ∈ timestampsOf posts, (fromisoformat (replaceZ t)).isSome)
    (h2 : 2 ≤ (parsedDates (timestampsOf posts)).length)
    (hc : comparableDates (parsedDates (timestampsOf posts)) = true) :
    optimalTimeOf (analyze_posting_patterns posts) =
      pad2 (pyMode (postHours posts)) ++ ":00" ∧
    pyMode (postHours posts) ∈ postHours posts ∧
    (∀ g ∈ postHours posts,
      (postHours posts).count g ≤ (postHours posts).count (pyMode (postHours posts))) ∧
    (∀ g ∈ postHours posts,
      (postHours posts).count g = (postHours posts).count (pyMode (postHours posts)) →
      (postHours posts).indexOf (pyMode (postHours posts)) ≤ (postHours posts).indexOf g) := by
  have hkey := posting_ok_eq posts hne hp h2 hc
  have hhne : postHours posts ≠ [] := by
    intro hx
    rw [postHours, List.map_eq_nil_iff] at hx
    rw [hx] at h2
    simp at h2
  obtain ⟨m1, m2, m3⟩ := pyMode_spec _ hhne
  refine ⟨?_, m1, m2, m3⟩
  rw [hkey]
  rfl

/-- C5 witness: the amended claim applied to the concrete two-hour posts. -/
theorem C5_optimal_time_witness :
    optimalTimeOf (analyze_posting_patterns
      [{ timestamp := some "2025-01-01T14:00:00" },
       { timestamp := some "2025-01-03T09:00:00" }]) =
      pad2 (pyMode (postHours
        [{ timestamp := some "2025-01-01T14:00:00" },
         { timestamp := some "2025-01-03T09:00:00" }])) ++ ":00" :=
  (C5_optimal_time
    [{ timestamp := some "2025-01-01T14:00:00" },
     { timestamp := some "2025-01-03T09:00:00" }]
    (by decide) (by decide) (by decide) (by decide)).1

/-! ## C6: dominant-color ranking with first-seen tie-break -/

/-- The strict order the color ranking realizes: `a` ranks before `b` when its
count is strictly greater, or the counts tie and `a`'s first occurrence comes
strictly earlier (here `f` is the count and `g` the first-occurrence index). -/
def rankedBefore {α : Type} (f g : α → ℕ) (a b : α) : Prop :=
  f b < f a ∨ (f b = f a ∧ g a < g b)

lemma orderedInsert_stable {α : Type} (f g : α → ℕ) (x : α) :
    ∀ l : List α, List.Pairwise (rankedBefore f g) l → (∀ y ∈ l, g x < g y) →
      List.Pairwise (rankedBefore f g)
        (List.orderedInsert (fun a b => f b ≤ f a) x l)
  | [], _, _ => by simp
  | b :: bs, hpw, hq => by
    rcases List.pairwise_cons.mp hpw with ⟨hb, hbs⟩
    by_cases hrb : f b ≤ f x
    · simp only [List.orderedInsert, if_pos hrb]
      refine List.Pairwise.cons ?_ hpw
      intro z hz
      have hzle : f z ≤ f x := by
        rcases List.mem_cons.mp hz with rfl | hz2
        · exact hrb
        · rcases hb z hz2 with h | ⟨h, _⟩ <;> omega
      rcases Nat.lt_or_ge (f z) (f x) with h | h
      · exact Or.inl h
      · exact Or.inr ⟨by omega, hq z hz⟩
    · simp only [List.orderedInsert, if_neg hrb]
      refine List.Pairwise.cons ?_
        (orderedInsert_stable f g x bs hbs
          (fun y hy => hq y (List.mem_cons_of_mem b hy)))
      intro z hz
      rcases (List.mem_orderedInsert _).mp hz with rfl | hz2
      · exact Or.inl (by omega)
      · exact hb z hz2

/-- Stability of the descending-count sort: when the input is listed in
strictly increasing first-occurrence order (as `firstKeys` is), the sorted
output is pairwise ordered by "greater count, or equal count and earlier
first occurrence" — the first-seen tie-break. -/
lemma insertionSort_stable {α : Type} (f g : α → ℕ) (l : List α)
    (hq : List.Pairwise (fun a b => g a < g b) l) :
    List.Pairwise (rankedBefore f g)
      (List.insertionSort (fun a b => f b ≤ f a) l) := by
  induction l with
  | nil => simp
  | cons x l ih =>
    rcases List.pairwise_cons.mp hq with ⟨hx, hl⟩
    simp only [List.insertionSort]
    exact orderedInsert_stable f g x _ (ih hl)
      (fun y hy => hx y ((List.perm_insertionSort _ l).mem_iff.mp hy))

/-- C6: dominant-color ranking is deterministic — colors are ranked by
descending count over the accumulated colors, ties broken by first-seen
order, keeping at most the top 5.  Concretely, [A,A,B,C,C,C] ranks [C,A,B],
and for the tied multisets [X,Y,Y,X,Z] and [Y,X,X,Y,Z] (X and Y both occur
twice) the tie resolves to whichever color occurs first.  In general the
ranking is pairwise ordered by "strictly greater count, or equal count and
strictly earlier first occurrence in the input", and the full ranking is a
permutation of the first-seen key list. -/
theorem C6_dominant_colors :
    dominantColors ["A", "A", "B", "C", "C", "C"] = ["C", "A", "B"] ∧
    dominantColors ["X", "Y", "Y", "X", "Z"] = ["X", "Y", "Z"] ∧
    dominantColors ["Y", "X", "X", "Y", "Z"] = ["Y", "X", "Z"] ∧
    (∀ cs : List String, (dominantColors cs).length ≤ 5) ∧
    (∀ cs : List String,
      List.Pairwise (fun a b => cs.count b ≤ cs.count a) (dominantColors cs)) ∧
    (∀ cs : List String,
      List.Pairwise (fun a b =>
        cs.count b < cs.count a ∨
          (cs.count b = cs.count a ∧ cs.indexOf a < cs.indexOf b))
        (dominantColors cs)) ∧
    (∀ cs : List String, (sortedByCountDesc cs).Perm (firstKeys cs)) := by
  refine ⟨by decide, by decide, by decide, fun cs => ?_, fun cs => ?_, fun cs => ?_,
    fun cs => List.perm_insertionSort _ _⟩
  · exact le_trans (le_of_eq (List.length_take _ _)) (min_le_left _ _)
  · haveI : IsTotal String (fun a b => cs.count b ≤ cs.count a) :=
      ⟨fun a b => le_total _ _⟩
    haveI : IsTrans String (fun a b => cs.count b ≤ cs.count a) :=
      ⟨fun _ _ _ hab hbc => le_trans hbc hab⟩
    exact List.Pairwise.sublist (List.take_sublist _ _)
      (List.sorted_insertionSort (fun a b => cs.count b ≤ cs.count a) (firstKeys cs))
  · exact List.Pairwise.sublist (List.take_sublist _ _)
      (insertionSort_stable (fun x => cs.count x) (fun a => cs.indexOf a)
        (firstKeys cs) (pairwise_indexOf_firstKeys cs))
